import Mathlib

/-!
Verification development for the agentcast client-side reliability layer.

The definitions below are a shallow embedding of the TypeScript sources:
  * `dist/browser.js` — failure classifier, circuit breaker, retry schedule,
    `startBrowser`, `stopBrowser`, `extractData`;
  * `browser-agent.ts` (the `BrowserAgent` class) — `initialize`, `goto`,
    `stop`, `confirm`, `resolveConfirmation`;
  * `constants.js` — default values.

Time is in milliseconds (`Nat`), matching the JavaScript `Date.now()` clock.
Remote interactions are modelled by passing the sequence of remote outcomes
(and attempt durations) as explicit inputs.
-/

/-- Does the second character list lead with the first one? -/
def leadsWith : List Char → List Char → Bool
  | [], _ => true
  | _ :: _, [] => false
  | a :: as, b :: bs => a == b && leadsWith as bs

/-- Does the second character list contain the first one as a contiguous run? -/
def containsChars (sub : List Char) : List Char → Bool
  | [] => leadsWith sub []
  | b :: bs => leadsWith sub (b :: bs) || containsChars sub bs

/-- JavaScript `String.prototype.includes`, used by the failure classifier. -/
def strContains (s sub : String) : Bool :=
  containsChars sub.toList s.toList

/-! ## Failure classifier (`dist/browser.js`, `isRetryableError` / `isNonRetryableError`) -/

/-- `isRetryableError` from `dist/browser.js`: a failure message is retryable when
it matches one of the transient-failure patterns; a `Container start failed`
message is retryable only when not tagged `non-retryable`. -/
def isRetryableError (msg : String) : Bool :=
  strContains msg "Connection refused" ||
  strContains msg "container port not found" ||
  strContains msg "Monitor failed" ||
  strContains msg "The operation was aborted" ||
  strContains msg "timeout" ||
  strContains msg "Container crashed" ||
  (strContains msg "Container start failed" && !strContains msg "non-retryable")

/-- `isNonRetryableError` from `dist/browser.js`: explicit non-retryable tag,
validation problems, or malformed input. -/
def isNonRetryableError (msg : String) : Bool :=
  strContains msg "non-retryable" ||
  strContains msg "validation" ||
  strContains msg "invalid"

/-! ## Circuit breaker (`dist/browser.js`) -/

/-- One entry of the `circuitBreakerState` map (per session id):
`{ failures, lastFailure, open }`. -/
structure CBEntry where
  failures : Nat
  lastFailure : Nat
  isOpen : Bool
  deriving Repr, DecidableEq

/-- `CIRCUIT_BREAKER_THRESHOLD = 5`. -/
def circuitBreakerThreshold : Nat := 5

/-- `CIRCUIT_BREAKER_WINDOW_MS = 5 * 60 * 1000`. -/
def circuitBreakerWindowMs : Nat := 5 * 60 * 1000

/-- `CIRCUIT_BREAKER_COOLDOWN_MS = 10 * 60 * 1000`. -/
def circuitBreakerCooldownMs : Nat := 10 * 60 * 1000

/-- `checkCircuitBreaker(sessionId)` from `dist/browser.js`, for one session id:
given the entry (or `none`) and the current time, returns whether the start
attempt is allowed together with the updated entry (the map deletion is
modelled by returning `none`).  Note the order of the checks in the source:
the failure-window staleness check runs before the `state.open` check. -/
def checkCircuitBreaker (state : Option CBEntry) (now : Nat) : Bool × Option CBEntry :=
  match state with
  | none => (true, none)
  | some s =>
    if now - s.lastFailure > circuitBreakerWindowMs then
      (true, none)
    else if s.isOpen then
      if now - s.lastFailure > circuitBreakerCooldownMs then
        (true, none)
      else
        (false, some s)
    else
      (true, some s)

/-- `recordCircuitBreakerFailure(sessionId)` from `dist/browser.js`:
increment the failure count, stamp the failure time, and open the circuit
once the count reaches the threshold. -/
def recordCircuitBreakerFailure (state : Option CBEntry) (now : Nat) : CBEntry :=
  let s := state.getD { failures := 0, lastFailure := 0, isOpen := false }
  let f := s.failures + 1
  { failures := f
    lastFailure := now
    isOpen := if f ≥ circuitBreakerThreshold then true else s.isOpen }

/-- `recordCircuitBreakerSuccess(sessionId)` from `dist/browser.js`:
delete the entry (full reset). -/
def recordCircuitBreakerSuccess (_state : Option CBEntry) : Option CBEntry :=
  none

/-- Fold a list of failure timestamps through `recordCircuitBreakerFailure`. -/
def recordFailures (state : Option CBEntry) (times : List Nat) : Option CBEntry :=
  times.foldl (fun st t => some (recordCircuitBreakerFailure st t)) state

/-! ## Start pipeline (`dist/browser.js`, `containerRetrySchedule` and `startBrowser`)

`startBrowser` runs one remote `start` request under
`Effect.retry(containerRetrySchedule)` and `Effect.timeoutFail(120 s)`.
The schedule is `exponential(1000, 2)` unioned with `spaced(5000)` (the union
waits for the earlier of the two intervals, capping the backoff at 5 s),
composed with `recurs(20)` (at most 20 retries after the initial attempt) and
gated by `whileInput(isRetryableError)`. -/

/-- Typed final error of the start pipeline: every failure is mapped to
`ContainerStartError` (`Effect.mapError` at the end of `startBrowser`). -/
inductive StartError where
  | containerStartError (message : String)
  deriving Repr, DecidableEq

/-- The remote response of one `start` request, as read by `startBrowser`:
HTTP status, body text on failure, and the parsed JSON fields on success. -/
structure StartResponse where
  ok : Bool
  httpStatus : Nat
  errorText : String
  errorField : Option String
  success : Bool
  wsEndpoint : Option String
  deriving Repr, DecidableEq

/-- JavaScript truthiness of an optional string (`data.error` checks):
`undefined` and the empty string are falsy. -/
def strTruthy (s : Option String) : Bool :=
  match s with
  | none => false
  | some v => v ≠ ""

/-- The error message thrown inside the `try` block of `startBrowser` for a
given remote response, or `none` when the attempt succeeds.  Mirrors the
source order: non-2xx first (with the 4xx `non-retryable` tag), then the
`data.error` field, then `success = false`. -/
def startAttemptError (r : StartResponse) : Option String :=
  if !r.ok then
    if 400 ≤ r.httpStatus && r.httpStatus < 500 then
      some ("Container start failed (non-retryable): " ++ r.errorText)
    else
      some ("Container start failed: " ++ r.errorText)
  else if strTruthy r.errorField then
    some ("Container start error: " ++ r.errorField.getD "")
  else if !r.success then
    some "Container start returned success=false"
  else
    none

/-- One remote start attempt either throws before a response is read
(connection-level failure) or yields a response. -/
inductive AttemptOutcome where
  | thrown (msg : String)
  | responded (r : StartResponse)
  deriving Repr

/-- The result of one attempt of the `try` block: the response on success,
or the thrown error message. -/
def attemptResult : AttemptOutcome → Except String StartResponse
  | .thrown msg => .error msg
  | .responded r =>
    match startAttemptError r with
    | some msg => .error msg
    | none => .ok r

/-- The wait before retry number `k` (0-based): `exponential(1000, 2)` unioned
with `spaced(5000)`, i.e. the minimum of `1000 * 2 ^ k` and `5000`. -/
def retryDelay (k : Nat) : Nat :=
  min (1000 * 2 ^ k) 5000

/-- `MAX_START_RETRIES`: `Schedule.recurs(20)` allows at most 20 retries after
the initial attempt. -/
def maxStartRetries : Nat := 20

/-- The retried attempt loop of `startBrowser`.  `outcomes i` is the outcome of
attempt `i` (0-based), `durs i` its duration; `fuel` is the remaining retry
budget, `i` the index of the current attempt and `t` the elapsed time at its
start.  Returns the total number of attempts made, the elapsed time when the
loop finishes, and the final result.  A failed attempt is retried exactly when
`isRetryableError` accepts the message and retries remain
(`Schedule.whileInput(isRetryableError)` composed with `Schedule.recurs(20)`);
each retry waits `retryDelay i` first. -/
def runStartAttempts (outcomes : Nat → AttemptOutcome) (durs : Nat → Nat) :
    Nat → Nat → Nat → Nat × Nat × Except String StartResponse
  | 0, i, t => (i + 1, t + durs i, attemptResult (outcomes i))
  | fuel + 1, i, t =>
    match attemptResult (outcomes i) with
    | .ok r => (i + 1, t + durs i, .ok r)
    | .error msg =>
      if isRetryableError msg then
        runStartAttempts outcomes durs fuel (i + 1) (t + durs i + retryDelay i)
      else
        (i + 1, t + durs i, .error msg)

/-- `Duration.seconds(120)`, the hard deadline of the start operation. -/
def startDeadlineMs : Nat := 120 * 1000

/-- The timeout error of `Effect.timeoutFail` in `startBrowser`. -/
def startTimeoutError : StartError :=
  .containerStartError "Container start timeout after 2 minutes"

/-- The retry pipeline of `startBrowser` (circuit breaker check excluded):
run the attempts and apply the 120 s deadline and the final error mapping.
If the pipeline would complete only after the deadline, the timeout fires
instead and the operation fails with `startTimeoutError`. -/
def startBrowser (outcomes : Nat → AttemptOutcome) (durs : Nat → Nat) :
    Except StartError StartResponse :=
  let res := runStartAttempts outcomes durs maxStartRetries 0 0
  if res.2.1 ≤ startDeadlineMs then
    match res.2.2 with
    | .ok r => .ok r
    | .error msg => .error (.containerStartError msg)
  else
    .error startTimeoutError

/-- Number of remote attempts the retry pipeline makes. -/
def startAttemptCount (outcomes : Nat → AttemptOutcome) (durs : Nat → Nat) : Nat :=
  (runStartAttempts outcomes durs maxStartRetries 0 0).1

/-- Elapsed time at which the retry pipeline completes on its own. -/
def startElapsed (outcomes : Nat → AttemptOutcome) (durs : Nat → Nat) : Nat :=
  (runStartAttempts outcomes durs maxStartRetries 0 0).2.1

/-- The circuit-open rejection message of `startBrowser`. -/
def circuitOpenMessage (sessionId : String) : String :=
  "Circuit breaker is open for session " ++ sessionId.take 8 ++
  ". Too many consecutive failures. Please wait before retrying."

/-- `startBrowser` including its circuit-breaker gate: the breaker is consulted
once, before the attempt sequence; when it rejects, the operation fails
immediately with the circuit-open `ContainerStartError` and zero remote
attempts are made.  Returns the number of remote attempts together with the
result. -/
def startBrowserGated (sessionId : String) (breaker : Option CBEntry) (now : Nat)
    (outcomes : Nat → AttemptOutcome) (durs : Nat → Nat) :
    Nat × Except StartError StartResponse :=
  if (checkCircuitBreaker breaker now).1 then
    (startAttemptCount outcomes durs, startBrowser outcomes durs)
  else
    (0, .error (.containerStartError (circuitOpenMessage sessionId)))

/-! ## Session model (`browser-agent.ts`, class `BrowserAgent`) -/

/-- Server-side session statuses (`types.ts`, `SessionStatus`). -/
inductive SessionStatus where
  | starting | ready | active | idle | stopping | stopped | error
  deriving Repr, DecidableEq

structure Viewport where
  width : Nat
  height : Nat
  deriving Repr, DecidableEq

inductive ColorScheme where
  | light | dark
  deriving Repr, DecidableEq

/-- The `SessionState` record of `browser-agent.ts`.  The `error` field holds
the error message when the status is `error`. -/
structure Session where
  id : String
  name : Option String
  status : SessionStatus
  viewUrl : String
  cdpUrl : String
  wsEndpoint : Option String
  createdAt : Nat
  lastActivity : Nat
  viewport : Viewport
  colorScheme : ColorScheme
  errorDetail : Option String
  deriving Repr, DecidableEq

/-- The options record of `BrowserAgent.initialize`. -/
structure InitOptions where
  sessionId : String
  name : Option String
  viewport : Option Viewport
  startUrl : Option String
  workerUrl : Option String
  colorScheme : Option ColorScheme
  deriving Repr

/-- The payload a successful `startBrowser` resolves with, as consumed by
`initialize` (`data.wsEndpoint`). -/
structure StartData where
  wsEndpoint : Option String
  deriving Repr, DecidableEq

/-- `DEFAULT_WORKER_URL` from `constants.js`. -/
def defaultWorkerUrl : String := "http://localhost:1337"

/-- `options.workerUrl || this._workerUrl || getWorkerUrl()`: JavaScript `||`
takes the first string that is not empty (empty strings are falsy). -/
def resolveBaseUrl (optUrl : Option String) (stored : String) : String :=
  match optUrl with
  | some u => if u = "" then (if stored = "" then defaultWorkerUrl else stored) else u
  | none => if stored = "" then defaultWorkerUrl else stored

/-- `BrowserAgent.initialize(options)`.  The previous session record is
discarded: a fresh record is built in status `starting` with `createdAt` and
`lastActivity` both stamped with the current time, the derived `viewUrl` and
`cdpUrl`, and no error detail.  `startResult` is the outcome of
`Effect.runPromise(startBrowser(...))`: on success the status becomes `ready`
and the returned `wsEndpoint` is recorded; on failure the status becomes
`error`, the failure message is stored, and the `ContainerStartError` is
re-thrown to the caller (returned here as the second component).
(JavaScript `baseUrl.replace('http', 'ws')` replaces the first occurrence;
base URLs carry the scheme once, so replacing every occurrence agrees.) -/
def initializeSession (opts : InitOptions) (stored : String) (now : Nat)
    (startResult : Except String StartData) : Session × Option String :=
  let baseUrl := resolveBaseUrl opts.workerUrl stored
  let fresh : Session :=
    { id := opts.sessionId
      name := opts.name
      status := .starting
      viewUrl := baseUrl ++ "/view/" ++ opts.sessionId
      cdpUrl := (baseUrl.replace "http" "ws") ++ "/cdp/" ++ opts.sessionId
      wsEndpoint := none
      createdAt := now
      lastActivity := now
      viewport := opts.viewport.getD { width := 1280, height := 720 }
      colorScheme := opts.colorScheme.getD .dark
      errorDetail := none }
  match startResult with
  | .ok data => ({ fresh with status := .ready, wsEndpoint := data.wsEndpoint }, none)
  | .error msg => ({ fresh with status := .error, errorDetail := some msg }, some msg)

/-- `BrowserAgent.goto(url)` after `ensureInitialized` has resolved on a ready
session: one remote navigation call; on success `lastActivity` is stamped with
the current time, on failure the session is unchanged and the
`NavigationError` propagates (second component). -/
def gotoSession (s : Session) (remoteOk : Bool) (now : Nat) : Session × Option String :=
  if remoteOk then
    ({ s with lastActivity := now }, none)
  else
    (s, some "NavigationError")

/-- `stopBrowser` from `dist/browser.js`: the remote stop request is wrapped in
`Effect.catchAll`, which logs the failure and returns `Effect.void`, so the
effect always succeeds regardless of the remote outcome. -/
def stopBrowserEffect (_remoteFails : Bool) : Except String Unit :=
  .ok ()

/-- `BrowserAgent.stop()`: no-op when no session exists; otherwise the status
moves through `stopping` to `stopped` unconditionally.  No other field of the
session record is touched and no error is ever raised (the model returns the
final record with no error channel). -/
def stopSession (session : Option Session) (remoteFails : Bool) : Option Session :=
  match session with
  | none => none
  | some s =>
    match stopBrowserEffect remoteFails with
    | .ok _ => some { s with status := .stopped }
    | .error _ => some { s with status := .stopped }

/-! ## Extraction (`dist/browser.js`, `extractData`) -/

/-- Error type of the single-attempt browser operations: every failure in
`extractData` (remote or validation) is wrapped by its `catch` handler into a
`BrowserError` with the `Failed to extract data: ` prefix. -/
inductive BrowserErr where
  | browserError (message : String)
  deriving Repr, DecidableEq

/-- The remote response of one `extract` request as read by `extractData`. -/
structure ExtractResponse where
  ok : Bool
  errorText : String
  success : Bool
  errorField : Option String
  payload : String
  deriving Repr, DecidableEq

/-- `extractData` from `dist/browser.js`: a non-2xx response throws
`Extraction failed: <body>`; a 2xx response with `success = false` or a truthy
`error` field throws that error text (defaulting to `Extraction failed`);
otherwise the payload is validated with the caller-supplied schema
(`schema.parse`), whose failure message is thrown as well.  Every thrown value
is wrapped by the `catch` handler into
`BrowserError("Failed to extract data: " ++ message)`. -/
def extractData (resp : ExtractResponse) (parse : String → Except String String) :
    Except BrowserErr String :=
  if !resp.ok then
    .error (.browserError ("Failed to extract data: Extraction failed: " ++ resp.errorText))
  else if !resp.success || strTruthy resp.errorField then
    .error (.browserError ("Failed to extract data: " ++
      (if strTruthy resp.errorField then resp.errorField.getD "" else "Extraction failed")))
  else
    match parse resp.payload with
    | .error msg => .error (.browserError ("Failed to extract data: " ++ msg))
    | .ok v => .ok v

/-! ## Confirmation gate (`browser-agent.ts`, `confirm` / `resolveConfirmation`)

`confirm(prompt, options)` throws `SessionNotConnectedError` when no session
exists; otherwise it installs a pending slot and arms a timer of
`options.timeout ?? DEFAULTS.CONFIRMATION_TIMEOUT_MS`.  Both the timer
callback and `resolveConfirmation(value)` resolve the promise only when the
slot is still occupied and clear the slot; afterwards every further call is a
no-op.  We model the slot as an `Option Unit` plus the list of values the
promise has been resolved with, and the two callbacks as events. -/

/-- `DEFAULTS.CONFIRMATION_TIMEOUT_MS` from `constants.js`. -/
def confirmationTimeoutMsDefault : Nat := 60000

/-- The timeout `confirm` arms: the caller-supplied one, defaulting to 60 s. -/
def confirmTimeout (timeoutOpt : Option Nat) : Nat :=
  timeoutOpt.getD confirmationTimeoutMsDefault

/-- `confirm` on a possibly absent session: with no session it throws
`SessionNotConnectedError` and starts no timer; otherwise the pending slot is
installed and the timer armed with `confirmTimeout`. -/
def confirmInit (session : Option Session) (timeoutOpt : Option Nat) :
    Except String (Option Unit × Nat) :=
  match session with
  | none => .error "SessionNotConnectedError: Session not initialized"
  | some _ => .ok (some (), confirmTimeout timeoutOpt)

/-- A resolution callback: an external `resolveConfirmation(value)` call, or
the expiry of the `confirm` timer. -/
inductive ConfirmEvent where
  | external (value : Bool)
  | timeoutFire
  deriving Repr, DecidableEq

/-- The value an event resolves with: the external value, or `false` on
timer expiry. -/
def resolutionValue : ConfirmEvent → Bool
  | .external v => v
  | .timeoutFire => false

/-- One callback firing: when the slot is occupied, resolve with the event
value and clear the slot; when the slot is empty, do nothing. -/
def confirmStep (st : Option Unit × List Bool) (e : ConfirmEvent) :
    Option Unit × List Bool :=
  match st.1 with
  | some _ => (none, st.2 ++ [resolutionValue e])
  | none => st

/-- Run a sequence of callbacks against a freshly installed pending slot. -/
def runConfirm (events : List ConfirmEvent) : Option Unit × List Bool :=
  events.foldl confirmStep (some (), [])

/-! ## Helper lemmas -/

/-- Every run of the retry loop makes at least one remote attempt. -/
theorem runStartAttempts_fst_ge (outcomes : Nat → AttemptOutcome) (durs : Nat → Nat) :
    ∀ fuel i t, i + 1 ≤ (runStartAttempts outcomes durs fuel i t).1 := by
  intro fuel
  induction fuel with
  | zero =>
    intro i t
    simp [runStartAttempts]
  | succ f ih =>
    intro i t
    simp only [runStartAttempts]
    cases h : attemptResult (outcomes i) with
    | ok r => simp
    | error msg =>
      by_cases hr : isRetryableError msg
      · simp only [hr, if_true]
        have := ih (i + 1) (t + durs i + retryDelay i)
        omega
      · simp [hr]

/-- The retry loop makes at most `fuel + 1` remote attempts beyond index `i`. -/
theorem runStartAttempts_fst_le (outcomes : Nat → AttemptOutcome) (durs : Nat → Nat) :
    ∀ fuel i t, (runStartAttempts outcomes durs fuel i t).1 ≤ i + fuel + 1 := by
  intro fuel
  induction fuel with
  | zero =>
    intro i t
    simp [runStartAttempts]
  | succ f ih =>
    intro i t
    simp only [runStartAttempts]
    cases h : attemptResult (outcomes i) with
    | ok r => simp
    | error msg =>
      by_cases hr : isRetryableError msg
      · simp only [hr, if_true]
        have := ih (i + 1) (t + durs i + retryDelay i)
        omega
      · simp [hr]

/-- Once the pending slot is empty, every further callback is a no-op. -/
theorem foldl_confirmStep_resolved (log : List Bool) :
    ∀ events : List ConfirmEvent, events.foldl confirmStep (none, log) = (none, log) := by
  intro events
  induction events with
  | nil => rfl
  | cons e rest ih => simpa [confirmStep] using ih

/-! ## Claims -/

/-- Claim C4: a single successful start clears the circuit-breaker entry for the
session id entirely (full reset, not decrement).  Consequently the sequence
fail, fail, fail, fail, succeed, fail, fail, fail, fail — at arbitrary
timestamps — leaves an entry with 4 failures and a closed breaker after the
8th total failure, and a check at the time of the last failure allows the next
attempt. -/
theorem success_clears_breaker_roundtrip (e : Option CBEntry)
    (t1 t2 t3 t4 t5 t6 t7 t8 : Nat) :
    recordCircuitBreakerSuccess e = none ∧
    recordFailures (recordCircuitBreakerSuccess (recordFailures none [t1, t2, t3, t4]))
        [t5, t6, t7, t8] =
      some { failures := 4, lastFailure := t8, isOpen := false } ∧
    (checkCircuitBreaker (some { failures := 4, lastFailure := t8, isOpen := false }) t8).1
      = true := by
  refine ⟨rfl, rfl, ?_⟩
  simp [checkCircuitBreaker, circuitBreakerWindowMs, Nat.sub_self]

/-- Claim C5 (code bug): in `checkCircuitBreaker` the failure-window staleness
check precedes the `state.open` check, so an open entry whose last failure is
older than the 5-minute window (here 301 s) is cleared by the staleness rule
and the attempt allowed, even though the claim (and the unreachable cooldown
branch of the source) requires the staleness rule to spare open entries. -/
theorem staleness_clears_open_entry :
    ({ failures := 7, lastFailure := 1000, isOpen := true } : CBEntry).isOpen = true ∧
    (302000 : Nat) - 1000 ≤ circuitBreakerCooldownMs ∧
    checkCircuitBreaker (some { failures := 7, lastFailure := 1000, isOpen := true }) 302000
      = (true, none) := by
  refine ⟨rfl, by decide, by decide⟩

/-- Claim C9: once a `confirm` call on an existing session has installed the
pending slot (and armed the timer, defaulting to 60 s), the first callback to
fire — an external `resolveConfirmation(value)` or the timer expiry, which
resolves `false` — wins: the promise is resolved exactly once with that
callback's value, the slot is cleared, and every later callback is a no-op. -/
theorem confirm_exactly_one_resolution (s : Session) (timeoutOpt : Option Nat)
    (e : ConfirmEvent) (rest : List ConfirmEvent) :
    confirmInit (some s) timeoutOpt = .ok (some (), confirmTimeout timeoutOpt) ∧
    confirmTimeout none = 60000 ∧
    resolutionValue .timeoutFire = false ∧
    runConfirm (e :: rest) = (none, [resolutionValue e]) := by
  refine ⟨rfl, rfl, rfl, ?_⟩
  show List.foldl confirmStep (confirmStep (some (), []) e) rest = (none, [resolutionValue e])
  have hstep : confirmStep (some (), []) e = (none, [resolutionValue e]) := rfl
  rw [hstep, foldl_confirmStep_resolved]

/-- Claim C10: `stop()` on any existing session — whatever its status, error
detail, or the outcome of the best-effort remote stop — returns the same
record with only the status changed to `stopped`, never raises, and is a
no-op when no session exists.  (`stopBrowser` swallows every remote failure
via `Effect.catchAll`.) -/
theorem stop_mutates_only_status (s : Session) (remoteFails : Bool) :
    stopSession (some s) remoteFails = some { s with status := .stopped } ∧
    stopSession none remoteFails = none ∧
    stopBrowserEffect remoteFails = .ok () := by
  exact ⟨rfl, rfl, rfl⟩

/-- Claim C1 (code bug): after 5 consecutive failures at time 0 the breaker is
open, and a start attempt 2 minutes later is rejected with the circuit-open
`ContainerStartError` and zero remote attempts.  But already at 6 minutes —
well inside the claimed 10-minute cooldown — the staleness check of
`checkCircuitBreaker` (which runs before the `state.open` check) deletes the
open entry and the next start attempt reaches the remote side, so the
rejection does not persist until the cooldown elapses; the cooldown branch of
the source is unreachable. -/
theorem circuit_open_not_held_through_cooldown
    (outcomes : Nat → AttemptOutcome) (durs : Nat → Nat) :
    recordFailures none [0, 0, 0, 0, 0] =
      some { failures := 5, lastFailure := 0, isOpen := true } ∧
    startBrowserGated "sess-0001"
        (some { failures := 5, lastFailure := 0, isOpen := true }) 120000 outcomes durs =
      (0, .error (.containerStartError (circuitOpenMessage "sess-0001"))) ∧
    (360000 : Nat) - 0 ≤ circuitBreakerCooldownMs ∧
    checkCircuitBreaker (some { failures := 5, lastFailure := 0, isOpen := true }) 360000
      = (true, none) ∧
    1 ≤ (startBrowserGated "sess-0001"
        (some { failures := 5, lastFailure := 0, isOpen := true }) 360000 outcomes durs).1 := by
  refine ⟨rfl, rfl, by decide, by decide, ?_⟩
  show 1 ≤ startAttemptCount outcomes durs
  have := runStartAttempts_fst_ge outcomes durs maxStartRetries 0 0
  unfold startAttemptCount
  omega

/-- The options record used for the concrete initialization scenarios. -/
def optsS1 : InitOptions :=
  { sessionId := "s1", name := none, viewport := none, startUrl := none,
    workerUrl := some "http://example.com", colorScheme := none }

/-- Claim C6 (code bug): a failed `initialize` leaves the session in status
`error` with the failure message stored; a subsequent `stop()` moves the
status through `stopping` to `stopped` but does not clear the stored error
detail, so the resulting reachable state has a non-empty error detail with a
non-`error` status, violating the claimed invariant. -/
theorem stop_keeps_error_detail :
    ((initializeSession optsS1 "" 0 (.error "boom")).1).status = .error ∧
    ((initializeSession optsS1 "" 0 (.error "boom")).1).errorDetail = some "boom" ∧
    stopSession (some (initializeSession optsS1 "" 0 (.error "boom")).1) false =
      some { (initializeSession optsS1 "" 0 (.error "boom")).1 with status := .stopped } ∧
    (stopSession (some (initializeSession optsS1 "" 0 (.error "boom")).1) false).map
        Session.errorDetail = some (some "boom") ∧
    (stopSession (some (initializeSession optsS1 "" 0 (.error "boom")).1) false).map
        Session.status = some .stopped := by
  exact ⟨rfl, rfl, rfl, rfl, rfl⟩

/-- Counterexample to claim C7: a successful `initialize` at time 100 does not
leave `lastActivity` unset — the fresh session record is created with
`lastActivity` stamped to the initialization time (equal to `createdAt`). -/
theorem initialize_sets_lastActivity :
    ((initializeSession optsS1 "" 100 (.ok { wsEndpoint := none })).1).status = .ready ∧
    ((initializeSession optsS1 "" 100 (.ok { wsEndpoint := none })).1).lastActivity = 100 ∧
    ((initializeSession optsS1 "" 100 (.ok { wsEndpoint := none })).1).createdAt = 100 := by
  exact ⟨rfl, rfl, rfl⟩

/-- Claim C7 (amended): `initialize` stamps both `createdAt` and `lastActivity`
with the initialization time (whatever the start outcome), and a successful
post-ready operation (here `goto`) updates `lastActivity` to the operation
time while a failed one leaves the session unchanged. -/
theorem lastActivity_update_semantics (opts : InitOptions) (stored : String)
    (now : Nat) (res : Except String StartData) (s : Session) (t : Nat) :
    ((initializeSession opts stored now res).1).lastActivity = now ∧
    ((initializeSession opts stored now res).1).createdAt = now ∧
    (gotoSession s true t).1.lastActivity = t ∧
    (gotoSession s false t).1 = s := by
  cases res <;> simp [initializeSession, gotoSession]

/-- A successful remote start response. -/
def startSuccessResponse : StartResponse :=
  { ok := true, httpStatus := 200, errorText := "", errorField := none,
    success := true, wsEndpoint := some "ws://container/cdp" }

/-- Attempts that always throw a connection-level timeout. -/
def timeoutsForever : Nat → AttemptOutcome := fun _ => .thrown "timeout"

/-- Attempts of negligible duration. -/
def zeroDurs : Nat → Nat := fun _ => 0

/-- An HTTP 422 rejection whose body text happens to mention a timeout. -/
def resp422timeout : StartResponse :=
  { ok := false, httpStatus := 422, errorText := "timeout", errorField := none,
    success := false, wsEndpoint := none }

/-- First attempt gets the 422-with-timeout-text rejection, later ones succeed. -/
def taggedFatalThenSuccess : Nat → AttemptOutcome :=
  fun i => if i = 0 then .responded resp422timeout else .responded startSuccessResponse

/-- The HTTP 422 `invalid viewport` rejection of the specification scenario. -/
def resp422invalid : StartResponse :=
  { ok := false, httpStatus := 422, errorText := "invalid viewport", errorField := none,
    success := false, wsEndpoint := none }

/-- Every attempt is rejected with HTTP 422 `invalid viewport`. -/
def invalidViewportAlways : Nat → AttemptOutcome := fun _ => .responded resp422invalid

/-- Attempts that take one second each. -/
def oneSecondDurs : Nat → Nat := fun _ => 1000

/-- Attempts that succeed immediately. -/
def slowSuccess : Nat → AttemptOutcome := fun _ => .responded startSuccessResponse

/-- Attempts that take 130 seconds each, overshooting the 120 s deadline. -/
def longDurs : Nat → Nat := fun _ => 130000

/-- Counterexample to claim C2: the failure message of an HTTP 422 rejection
whose body mentions `timeout` is classified Fatal by `isNonRetryableError`
(it carries the `non-retryable` tag), yet the retry loop — which is gated
solely by `isRetryableError`, and the `timeout` pattern matches — issues a
second remote call. -/
theorem fatal_with_timeout_text_retried :
    isNonRetryableError "Container start failed (non-retryable): timeout" = true ∧
    attemptResult (taggedFatalThenSuccess 0) =
      .error "Container start failed (non-retryable): timeout" ∧
    startAttemptCount taggedFatalThenSuccess zeroDurs = 2 := by
  exact ⟨by decide, rfl, rfl⟩

/-- Claim C2 (amended): a Fatal-classified first failure causes exactly one
remote attempt and a final `ContainerStartError` carrying the failure message,
provided the message matches none of the retryable patterns — retry is gated
solely by `isRetryableError`, not by the Fatal classification. -/
theorem fatal_unmatched_single_attempt
    (outcomes : Nat → AttemptOutcome) (durs : Nat → Nat) (msg : String)
    (hmsg : attemptResult (outcomes 0) = .error msg)
    (_hfatal : isNonRetryableError msg = true)
    (hnoretry : isRetryableError msg = false)
    (hdur : durs 0 ≤ startDeadlineMs) :
    startAttemptCount outcomes durs = 1 ∧
    startBrowser outcomes durs = .error (.containerStartError msg) := by
  have hrun : runStartAttempts outcomes durs maxStartRetries 0 0 =
      (1, durs 0, .error msg) := by
    show runStartAttempts outcomes durs (19 + 1) 0 0 = _
    simp [runStartAttempts, hmsg, hnoretry]
  constructor
  · unfold startAttemptCount
    rw [hrun]
  · unfold startBrowser
    rw [hrun]
    simp [hdur]

/-- Witness for the amended claim C2: the specification scenario — HTTP 422
`invalid viewport` — makes exactly one remote attempt and fails with
`ContainerStartError`. -/
theorem fatal_unmatched_single_attempt_witness :
    startAttemptCount invalidViewportAlways oneSecondDurs = 1 ∧
    startBrowser invalidViewportAlways oneSecondDurs =
      .error (.containerStartError
        "Container start failed (non-retryable): invalid viewport") := by
  exact fatal_unmatched_single_attempt invalidViewportAlways oneSecondDurs _
    rfl (by decide) (by decide) (by decide)

/-- Counterexample to claim C3: with every attempt failing retryably, the
pipeline makes 21 remote attempts — `Schedule.recurs(20)` bounds the retries,
not the total attempts, so the claimed bound of 20 attempts total is off by
one. -/
theorem twenty_one_attempts_possible :
    startAttemptCount timeoutsForever zeroDurs = 21 ∧
    ¬ startAttemptCount timeoutsForever zeroDurs ≤ 20 := by
  exact ⟨rfl, by decide⟩

/-- Claim C3 (amended): the retry backoff starts at 1000 ms and doubles,
capped at 5000 ms per wait; the pipeline makes at most 21 attempts total
(one initial call plus at most 20 retries); and independently, when the
pipeline would complete only after the 120 s deadline, the whole operation
fails with the timeout `ContainerStartError` — whichever limit is hit first
determines the failure. -/
theorem start_retry_policy_bounds (outcomes : Nat → AttemptOutcome) (durs : Nat → Nat) :
    startAttemptCount outcomes durs ≤ maxStartRetries + 1 ∧
    retryDelay 0 = 1000 ∧
    (∀ k, retryDelay (k + 1) = min (2 * retryDelay k) 5000) ∧
    (∀ k, retryDelay k ≤ 5000) ∧
    (startDeadlineMs < startElapsed outcomes durs →
      startBrowser outcomes durs = .error startTimeoutError) := by
  refine ⟨?_, rfl, ?_, ?_, ?_⟩
  · have := runStartAttempts_fst_le outcomes durs maxStartRetries 0 0
    unfold startAttemptCount
    omega
  · intro k
    have h2 : 1000 * 2 ^ (k + 1) = 2 * (1000 * 2 ^ k) := by ring
    unfold retryDelay
    rw [h2]
    generalize 1000 * 2 ^ k = a
    omega
  · intro k
    exact min_le_right _ _
  · intro h
    unfold startElapsed at h
    unfold startBrowser
    have hn : ¬ (runStartAttempts outcomes durs maxStartRetries 0 0).2.1 ≤ startDeadlineMs := by
      omega
    simp [hn]

/-- Witness for the amended claim C3: attempts lasting 130 s overshoot the
deadline, and the operation fails with the timeout `ContainerStartError`. -/
theorem start_retry_policy_bounds_witness :
    startDeadlineMs < startElapsed slowSuccess longDurs ∧
    startBrowser slowSuccess longDurs = .error startTimeoutError := by
  exact ⟨by decide, (start_retry_policy_bounds slowSuccess longDurs).2.2.2.2 (by decide)⟩

/-- An `extract` remote call that fails outright with body `boom`. -/
def respRemoteFail : ExtractResponse :=
  { ok := false, errorText := "boom", success := true, errorField := none, payload := "d" }

/-- A successful `extract` remote call with payload `d`. -/
def respRemoteOk : ExtractResponse :=
  { ok := true, errorText := "", success := true, errorField := none, payload := "d" }

/-- A schema that accepts every payload. -/
def parseAccept : String → Except String String := fun _ => .ok "x"

/-- A schema that rejects the payload with a message that happens to collide
with the remote-failure wording. -/
def parseReject : String → Except String String := fun _ => .error "Extraction failed: boom"

/-- Counterexample to claim C8: a remote-call failure and a schema-validation
failure on a successful remote call can produce exactly the same error value —
both are wrapped by the single `catch` handler of `extractData` into a
`BrowserError` with the `Failed to extract data: ` prefix — so the two cases
are not distinguishable by the caller. -/
theorem extract_failures_indistinguishable :
    respRemoteFail.ok = false ∧
    respRemoteOk.ok = true ∧ respRemoteOk.success = true ∧
    parseReject respRemoteOk.payload = .error "Extraction failed: boom" ∧
    extractData respRemoteFail parseAccept = extractData respRemoteOk parseReject := by
  exact ⟨rfl, rfl, rfl, rfl, rfl⟩

/-- Claim C8 (amended): when the remote `extract` call succeeds but the
payload fails the caller-supplied schema, the operation fails with a
`BrowserError` wrapping the validation message — the same error type (and
message prefix) used for remote-call failures, so the two cases are not
distinguishable by error type. -/
theorem extract_validation_wrapped_as_browser_error
    (resp : ExtractResponse) (parse : String → Except String String) (m : String)
    (hok : resp.ok = true) (hsucc : resp.success = true)
    (herr : strTruthy resp.errorField = false)
    (hparse : parse resp.payload = .error m) :
    extractData resp parse = .error (.browserError ("Failed to extract data: " ++ m)) ∧
    extractData respRemoteFail parseAccept =
      .error (.browserError "Failed to extract data: Extraction failed: boom") := by
  refine ⟨?_, rfl⟩
  simp [extractData, hok, hsucc, herr, hparse]

/-- Witness for the amended claim C8: the concrete validation failure is
wrapped into the `BrowserError` with the `Failed to extract data: ` prefix. -/
theorem extract_validation_wrapped_witness :
    extractData respRemoteOk parseReject =
      .error (.browserError ("Failed to extract data: " ++ "Extraction failed: boom")) ∧
    extractData respRemoteFail parseAccept =
      .error (.browserError "Failed to extract data: Extraction failed: boom") := by
  exact extract_validation_wrapped_as_browser_error respRemoteOk parseReject _
    rfl rfl rfl rfl
